import Mathlib

/-!
Verification of the rtstat router-statistics tool (src/rtstat/rtstat.py).

Python strings are modelled as List Char (Str below); Python dicts from
string to string as association lists with overwrite-on-insert; every
Python operation that can raise is modelled in the Except monad over the
PyError type, whose constructors stand for the exception classes the
source can actually raise.
-/

set_option maxHeartbeats 1000000

/-- Python strings, modelled as lists of characters. -/
abbrev Str := List Char

/-- The exceptions the source code can raise, each with the payload the
corresponding Python exception carries at the raise site. -/
inductive PyError where
  /-- raise IOError(msg) at rtstat.py line 71 (spec name: ProtocolError). -/
  | ioError (msg : String)
  /-- dict lookup kv[key] on a missing key (spec name: DataFormatError). -/
  | keyError (key : Str)
  /-- a read of a local variable that was never assigned on this path. -/
  | unboundLocal (var : String)
  /-- int() or datetime.strptime() rejecting its input string. -/
  | valueError (msg : String)
  /-- a list index out of range. -/
  | indexError
  deriving DecidableEq, Repr

/-- Python string-keyed dict with string values, as an insertion-ordered
association list (keys unique). -/
abbrev Dict := List (Str × Str)

/-- dict assignment kv[k] = v: overwrite in place if k is present, else append. -/
def dictInsert (kv : Dict) (k v : Str) : Dict :=
  match kv with
  | [] => [(k, v)]
  | (k0, v0) :: rest => if k0 = k then (k0, v) :: rest else (k0, v0) :: dictInsert rest k v

/-- Lookup of a key in a dict, as an Option. -/
def dictFind (kv : Dict) (k : Str) : Option Str :=
  match kv with
  | [] => none
  | (k0, v0) :: rest => if k0 = k then some v0 else dictFind rest k

/-- Python subscript kv[k]: the value when present, KeyError otherwise. -/
def dictGet (kv : Dict) (k : Str) : Except PyError Str :=
  match dictFind kv k with
  | some v => .ok v
  | none => .error (.keyError k)

/-- The whitespace characters stripped by Python str.strip() (ASCII range):
space, tab, newline, carriage return, vertical tab, form feed. -/
def pyWs (c : Char) : Bool :=
  decide (c.toNat = 32 ∨ c.toNat = 9 ∨ c.toNat = 10 ∨ c.toNat = 13 ∨ c.toNat = 11 ∨ c.toNat = 12)

/-- ASCII decimal digit test (code points 48-57). -/
def isDig (c : Char) : Bool :=
  decide (48 ≤ c.toNat ∧ c.toNat ≤ 57)

/-- Python str.strip(): remove leading and trailing whitespace. -/
def pyStrip (cs : Str) : Str :=
  ((cs.dropWhile pyWs).reverse.dropWhile pyWs).reverse

/-- Python str.split(sep) with a one-character explicit separator: every
occurrence splits, empty fields are kept, the empty string yields one
empty field. -/
def pySplit (cs : Str) (sep : Char) : List Str :=
  match cs with
  | [] => [[]]
  | c :: rest =>
    if c = sep then [] :: pySplit rest sep
    else
      match pySplit rest sep with
      | [] => [[c]]
      | p :: ps => (c :: p) :: ps

/-- Python str.endswith(s). -/
def pyEndsWith (data s : Str) : Bool :=
  s.length ≤ data.length && data.drop (data.length - s.length) == s

/-- Python list subscript l[i] for a nonnegative index: IndexError when out of range. -/
def pyIndex (l : List Str) (i : Nat) : Except PyError Str :=
  match l.get? i with
  | some x => .ok x
  | none => .error .indexError

/-- Accumulator loop for the digits of a decimal literal, most significant first. -/
def digitsValGo : Str → Nat → Option Nat
  | [], acc => some acc
  | c :: rest, acc =>
    if isDig c then digitsValGo rest (acc * 10 + (c.toNat - 48)) else none

/-- Value of a nonempty all-digit string, none otherwise. -/
def digitsVal (cs : Str) : Option Nat :=
  if cs = [] then none else digitsValGo cs 0

/-- Python int() applied to a string: optional surrounding whitespace, an
optional sign, then one or more ASCII decimal digits (underscore grouping
is not modelled); anything else is a ValueError. -/
def pyInt (cs : Str) : Option Int :=
  match pyStrip cs with
  | '-' :: rest => (digitsVal rest).map (fun n => -(n : Int))
  | '+' :: rest => (digitsVal rest).map (fun n => (n : Int))
  | rest => (digitsVal rest).map (fun n => (n : Int))

/-- int() in the Except monad: ValueError on a malformed literal. -/
def pyIntE (cs : Str) : Except PyError Int :=
  match pyInt cs with
  | some n => .ok n
  | none => .error (.valueError "invalid literal for int() with base 10")

/-- Python floor division a // b, as used by the source on ints. -/
def pyFloorDiv (a b : Int) : Int :=
  Int.fdiv a b

/-- Python slice data[:-n]: for n = 0 this is data[:0], the empty string;
for n greater than 0 it drops the last n characters. -/
def pySliceNeg (data : Str) (n : Nat) : Str :=
  if n = 0 then [] else data.take (data.length - n)

/-- rtstat.py line 14: the character class kept by sanitize, as the source
writes it: 31 less than ord(c) less than 127, or c a newline. -/
def sanitizeKeep (c : Char) : Bool :=
  decide ((31 < c.toNat ∧ c.toNat < 127) ∨ c = '\n')

/-- rtstat.py lines 14-16: join of the comprehension keeping exactly the
characters satisfying sanitizeKeep. -/
def sanitize (s : Str) : Str :=
  s.filter sanitizeKeep

/-- The spec's description of the kept class (section 4.1): code point
strictly between 31 and 127, or the newline character. -/
def specKeep (c : Char) : Prop :=
  (31 < c.toNat ∧ c.toNat < 127) ∨ c = '\n'

instance (c : Char) : Decidable (specKeep c) := by
  unfold specKeep; infer_instance

/-- rtstat.py lines 32-42: the inner scanning loop of parse_key_value.
Returns the value the Python loop variable i holds after the loop: the
index at which the loop broke (the first separator seen at nesting level
zero, with the elif chain checking parentheses first), or the last index
of the line when the loop ran to completion, or none when the line is
empty and the loop body never executed. -/
def pyForI (sep : Char) : Str → Int → Nat → Option Nat
  | [], _, _ => none
  | [_], _, idx => some idx
  | c :: c2 :: rest, level, idx =>
    if c = '(' then pyForI sep (c2 :: rest) (level + 1) (idx + 1)
    else if c = ')' then pyForI sep (c2 :: rest) (level - 1) (idx + 1)
    else if c = sep ∧ level = 0 then some idx
    else pyForI sep (c2 :: rest) level (idx + 1)

/-- The spec's notion (sections 3 and 4.2): index of the first separator
encountered at parenthesis-nesting depth zero, scanning left to right
with the same branch order as the code, or none when there is no such
index in the whole line. -/
def firstDepth0Sep (sep : Char) : Str → Int → Nat → Option Nat
  | [], _, _ => none
  | c :: rest, level, idx =>
    if c = '(' then firstDepth0Sep sep rest (level + 1) (idx + 1)
    else if c = ')' then firstDepth0Sep sep rest (level - 1) (idx + 1)
    else if c = sep ∧ level = 0 then some idx
    else firstDepth0Sep sep rest level (idx + 1)

/-- rtstat.py lines 31-48: the body of the outer loop of parse_key_value
for one line. The state carries the dict built so far and the last value
of the function-local loop variable i (none while still unassigned): when
the line is empty the inner loop never runs and Python reads the stale or
unbound i, raising UnboundLocalError in the latter case. -/
def parseStep (sep : Char) (st : Dict × Option Nat) (line : Str) : Except PyError (Dict × Option Nat) :=
  match (pyForI sep line 0 0).orElse (fun _ => st.2) with
  | none => .error (.unboundLocal "i")
  | some i =>
    let k := pyStrip (line.take i)
    let v := pyStrip (line.drop (i + 1))
    .ok (if k = [] then st.1 else dictInsert st.1 k v, some i)

/-- rtstat.py lines 27-50: parse_key_value over a list of lines. -/
def parse_key_value (lines : List Str) (sep : Char) : Except PyError Dict :=
  Except.map Prod.fst (List.foldlM (parseStep sep) (([] : Dict), (none : Option Nat)) lines)

deriving instance DecidableEq for Except


/-- Character for the decimal digit d. -/
def digitChar (d : Nat) : Char :=
  Char.ofNat (48 + d)

/-- Two-digit zero-padded decimal rendering of n (n at most 99), used to
state theorems about well-formed device output. -/
def pad2 (n : Nat) : Str :=
  [digitChar (n / 10), digitChar (n % 10)]

/-- One field of the strptime format: a regex alternation that prefers a
two-digit ASCII number when its value does not exceed maxv and the rest
of the pattern matches, and otherwise backtracks to a single digit, as
the alternations in the regexes CPython compiles for the %H, %M and %S
directives do. The continuation k returns none to trigger backtracking. -/
def parse2or1 (maxv : Nat) (cs : Str) (k : Nat → Str → Option (Nat × Nat × Nat)) :
    Option (Nat × Nat × Nat) :=
  match cs with
  | [] => none
  | c1 :: rest1 =>
    if isDig c1 then
      match rest1 with
      | [] => k (c1.toNat - 48) []
      | c2 :: rest2 =>
        if isDig c2 ∧ (c1.toNat - 48) * 10 + (c2.toNat - 48) ≤ maxv then
          match k ((c1.toNat - 48) * 10 + (c2.toNat - 48)) rest2 with
          | some r => some r
          | none => k (c1.toNat - 48) rest1
        else k (c1.toNat - 48) rest1
    else none

/-- A literal colon in the strptime format. -/
def expectColon (cs : Str) (k : Str → Option (Nat × Nat × Nat)) : Option (Nat × Nat × Nat) :=
  match cs with
  | ':' :: rest => k rest
  | _ => none

/-- Model of datetime.strptime(s, the hour-minute-second format): hour at
most 23, minute at most 59, second at most 61 (leap seconds), each one or
two digits, separated by literal colons, with the whole string consumed;
returns the (hour, minute, second) triple. -/
def parseHMS (cs : Str) : Option (Nat × Nat × Nat) :=
  parse2or1 23 cs (fun h cs1 =>
    expectColon cs1 (fun cs2 =>
      parse2or1 59 cs2 (fun m cs3 =>
        expectColon cs3 (fun cs4 =>
          parse2or1 61 cs4 (fun s cs5 =>
            if cs5 = [] then some (h, m, s) else none)))))

/-- strptime in the Except monad: ValueError when the string does not
match the format. -/
def strptimeHMS (cs : Str) : Except PyError (Nat × Nat × Nat) :=
  match parseHMS cs with
  | some t => .ok t
  | none => .error (.valueError "time data does not match format")

/-- rtstat.py lines 145-149: the uptime field extraction of get_xdsl_info.
days is int(uptime_str.split(sep)[0].strip().split(space)[0]); the part
after the comma is stripped and parsed by strptime; the result is
days * 3600 * 24 + hour * 3600 + minute * 60 + second. -/
def uptimeFromStr (uptime_str : Str) : Except PyError Int := do
  let part0 ← pyIndex (pySplit uptime_str ',') 0
  let daysTok ← pyIndex (pySplit (pyStrip part0) ' ') 0
  let days ← pyIntE daysTok
  let part1 ← pyIndex (pySplit uptime_str ',') 1
  let hms := pyStrip part1
  let t ← strptimeHMS hms
  .ok (days * 3600 * 24 + (t.1 : Int) * 3600 + (t.2.1 : Int) * 60 + (t.2.2 : Int))

/-- rtstat.py line 152: bwd = 1000 * int(bandwidth_str.split(slash)[0]) // 8. -/
def bwdFromStr (bandwidth_str : Str) : Except PyError Int := do
  let tok ← pyIndex (pySplit bandwidth_str '/') 0
  let n ← pyIntE tok
  .ok (pyFloorDiv (1000 * n) 8)

/-- rtstat.py line 153: bwu = 1000 * int(bandwidth_str.split(slash)[1]) // 8. -/
def bwuFromStr (bandwidth_str : Str) : Except PyError Int := do
  let tok ← pyIndex (pySplit bandwidth_str '/') 1
  let n ← pyIntE tok
  .ok (pyFloorDiv (1000 * n) 8)

/-- The typed fields of the xdsl-info metric group built at rtstat.py
lines 155-163. -/
structure XdslInfo where
  state : Str
  uptime : Int
  xdslType : Str
  bandwidthDown : Int
  bandwidthUp : Int
  deriving DecidableEq, Repr

/-- The key of the uptime field in the parsed xdsl info output. -/
def upKey : Str := "Up time (Days hh:mm:ss)".toList

/-- The key of the bandwidth field in the parsed xdsl info output. -/
def bwKey : Str := "Bandwidth (Down/Up - kbit/s)".toList

/-- rtstat.py lines 145-163: the field extraction of get_xdsl_info from
the parsed key-value data, with the lookups in the evaluation order of
the source: the uptime key, the bandwidth key, then the Modem state and
xDSL Type keys inside the dict literal. -/
def get_xdsl_info_extract (kv : Dict) : Except PyError XdslInfo := do
  let uptime_str ← dictGet kv upKey
  let uptime ← uptimeFromStr uptime_str
  let bandwidth_str ← dictGet kv bwKey
  let bwd ← bwdFromStr bandwidth_str
  let bwu ← bwuFromStr bandwidth_str
  let state ← dictGet kv ("Modem state".toList)
  let xt ← dictGet kv ("xDSL Type".toList)
  .ok { state := state, uptime := uptime, xdslType := xt, bandwidthDown := bwd, bandwidthUp := bwu }

/-- The command name recoverable from an error value raised by the source:
every PyError constructor carries at most a message or a missing key, so
no error identifies the command that was being executed. -/
def errCommand (e : PyError) : Option Str :=
  match e with
  | .ioError _ => none
  | .keyError _ => none
  | .unboundLocal _ => none
  | .valueError _ => none
  | .indexError => none

/-- State of the scripted transport standing for the telnetlib connection:
the chunks still to be returned by successive read_until calls (a read
past the script models a timeout returning no data), the accumulated
writes, and how many times close() has run. -/
structure TState where
  chunks : List Str
  writes : List Str
  closeCount : Nat
  deriving DecidableEq, Repr

/-- read_until on the scripted transport: the next chunk, or no data when
the script is exhausted (a timeout that saw nothing). -/
def tRead (st : TState) : Str × TState :=
  match st.chunks with
  | [] => ([], st)
  | c :: rest => (c, { st with chunks := rest })

/-- write on the scripted transport. -/
def tWrite (st : TState) (s : Str) : TState :=
  { st with writes := st.writes ++ [s] }

/-- close on the scripted transport. -/
def tClose (st : TState) : TState :=
  { st with closeCount := st.closeCount + 1 }

/-- rtstat.py lines 67-73 (TG585v8.read), the pure part: given the data a
read_until call returned and the expected terminator s, raise IOError
when the data does not end with s, else return the sanitized data with
the final len(s) characters sliced off. -/
def readResult (data s : Str) : Except PyError Str :=
  if !(pyEndsWith data s) then .error (.ioError "Failed to read from telnet session.")
  else .ok (sanitize (pySliceNeg data s.length))

/-- TG585v8.read against the scripted transport: one read_until, then the
terminator check. -/
def sRead (st : TState) (s : Str) : Except PyError Str × TState :=
  match tRead st with
  | (data, st1) => (readResult data s, st1)

/-- The attributes of a TG585v8 instance whose construction completed. -/
structure Session where
  username : Str
  password : Str
  connected : Bool
  deriving DecidableEq, Repr

/-- The top-level prompt built at rtstat.py line 107: the username wrapped
in braces, followed by the arrow marker. -/
def promptTop (u : Str) : Str :=
  '\x7b' :: (u ++ '\x7d' :: '=' :: '>' :: [])

/-- The prompt marker used by send at rtstat.py line 119: the username
wrapped in braces only. -/
def promptCmd (u : Str) : Str :=
  '\x7b' :: (u ++ ['\x7d'])

/-- The terminator string Username-space-colon-space read at line 101. -/
def usernamePrompt : Str := "Username : ".toList

/-- The terminator string Password-space-colon-space read at line 103. -/
def passwordPrompt : Str := "Password : ".toList

/-- rtstat.py lines 79-107: TG585v8.init against a scripted transport.
Defaults are Administrator and the empty password; the three handshake
reads and two writes happen in source order, connected is set to true
after the password write and before the final prompt read; a failing read
raises out of the constructor. -/
def tg_init (script : List Str) (username password : Option Str) :
    Except PyError Session × TState :=
  let st0 : TState := { chunks := script, writes := [], closeCount := 0 }
  let uname := username.getD ("Administrator".toList)
  let pword := password.getD []
  match sRead st0 usernamePrompt with
  | (.error e, st) => (.error e, st)
  | (.ok _, st) =>
    let st := tWrite st (uname ++ "\r\n".toList)
    match sRead st passwordPrompt with
    | (.error e, st) => (.error e, st)
    | (.ok _, st) =>
      let st := tWrite st (pword ++ "\r\n".toList)
      match sRead st (promptTop uname) with
      | (.error e, st) => (.error e, st)
      | (.ok _, st) => (.ok { username := uname, password := pword, connected := true }, st)

/-- rtstat.py lines 109-119: send writes the command plus the line
terminator, reads up to the first line terminator to discard the echo,
then reads up to the prompt marker and returns that output. -/
def tg_send (sess : Session) (st : TState) (command : Str) : Except PyError Str × TState :=
  let st := tWrite st (command ++ "\r\n".toList)
  match sRead st ("\r\n".toList) with
  | (.error e, st) => (.error e, st)
  | (.ok _, st) => sRead st (promptCmd sess.username)

/-- rtstat.py lines 121-124: TG585v8.exit writes the logout command when
connected and closes the transport unconditionally. -/
def tg_exit (sess : Session) (st : TState) : TState :=
  let st := if sess.connected then tWrite st ("exit\r\n".toList) else st
  tClose st

/-- The with-statement of rtstat.py lines 233-239 with CPython semantics:
the constructor runs inside the with expression, so when it raises the
context manager is never entered and TG585v8.exit never runs; when it
succeeds the body runs and TG585v8.exit runs exactly once afterwards,
whether or not the body raised. -/
def withRouter (script : List Str) (body : Session → TState → Except PyError Nat × TState) :
    Except PyError Nat × TState :=
  match tg_init script none none with
  | (.error e, st) => (.error e, st)
  | (.ok sess, st) =>
    match body sess st with
    | (res, st) => (res, tg_exit sess st)

/-- The loop of rtstat.py lines 131-132: n sends of the given command,
discarding output, a failing send raising out of the loop. -/
def sendN (n : Nat) (sess : Session) (st : TState) (command : Str) :
    Except PyError Unit × TState :=
  match n with
  | 0 => (.ok (), st)
  | n + 1 =>
    match tg_send sess st command with
    | (.error e, st) => (.error e, st)
    | (.ok _, st) => sendN n sess st command

/-- rtstat.py lines 129-132: reset_level sends the go-up command four
times. -/
def reset_level (sess : Session) (st : TState) : Except PyError Unit × TState :=
  sendN 4 sess st ("..".toList)


theorem exceptBind_error {α β : Type} (e : PyError) (f : α → Except PyError β) :
    (Except.error e : Except PyError α) >>= f = Except.error e := rfl

theorem exceptBind_ok {α β : Type} (a : α) (f : α → Except PyError β) :
    (Except.ok a : Except PyError α) >>= f = f a := rfl

theorem pyForI_of_firstDepth0Sep (sep : Char) :
    ∀ (cs : Str) (level : Int) (idx j : Nat),
      firstDepth0Sep sep cs level idx = some j → pyForI sep cs level idx = some j := by
  intro cs
  induction cs with
  | nil => intro level idx j h; simp [firstDepth0Sep] at h
  | cons c rest ih =>
    intro level idx j h
    cases rest with
    | nil =>
      simp only [firstDepth0Sep] at h
      by_cases h1 : c = '('
      · rw [if_pos h1] at h; simp [firstDepth0Sep] at h
      · rw [if_neg h1] at h
        by_cases h2 : c = ')'
        · rw [if_pos h2] at h; simp [firstDepth0Sep] at h
        · rw [if_neg h2] at h
          by_cases h3 : c = sep ∧ level = 0
          · rw [if_pos h3] at h
            simp only [Option.some.injEq] at h
            subst h
            simp [pyForI]
          · rw [if_neg h3] at h; simp [firstDepth0Sep] at h
    | cons c2 rest2 =>
      simp only [firstDepth0Sep] at h
      simp only [pyForI]
      by_cases h1 : c = '('
      · rw [if_pos h1] at h ⊢; exact ih _ _ _ h
      · rw [if_neg h1] at h ⊢
        by_cases h2 : c = ')'
        · rw [if_pos h2] at h ⊢; exact ih _ _ _ h
        · rw [if_neg h2] at h ⊢
          by_cases h3 : c = sep ∧ level = 0
          · rw [if_pos h3] at h ⊢; exact h
          · rw [if_neg h3] at h ⊢; exact ih _ _ _ h

/-- C2: for a line with a separator at parenthesis-nesting depth zero,
parse_key_value splits the line at the first such separator (occurrences
inside parentheses are skipped), the key is the stripped text before it,
the value the stripped text after it, and no entry is emitted when the
stripped key is empty; this holds for the processing of the line from any
parser state, and for the parse of the single-line input in particular. -/
theorem parse_splits_at_first_depth0_sep (sep : Char) (line : Str) (j : Nat)
    (hj : firstDepth0Sep sep line 0 0 = some j) :
    (∀ (kv : Dict) (iSt : Option Nat),
        parseStep sep (kv, iSt) line =
          .ok (if pyStrip (line.take j) = [] then kv
               else dictInsert kv (pyStrip (line.take j)) (pyStrip (line.drop (j + 1))), some j))
  ∧ parse_key_value [line] sep =
      .ok (if pyStrip (line.take j) = [] then []
           else [(pyStrip (line.take j), pyStrip (line.drop (j + 1)))]) := by
  have hp := pyForI_of_firstDepth0Sep sep line 0 0 j hj
  have hstep : ∀ (kv : Dict) (iSt : Option Nat),
      parseStep sep (kv, iSt) line =
        .ok (if pyStrip (line.take j) = [] then kv
             else dictInsert kv (pyStrip (line.take j)) (pyStrip (line.drop (j + 1))), some j) := by
    intro kv iSt
    simp only [parseStep, hp, Option.orElse]
  refine ⟨hstep, ?_⟩
  simp only [parse_key_value, List.foldlM, hstep [] none]
  by_cases hk : pyStrip (line.take j) = []
  · simp [hk, Except.map]
  · simp [hk, Except.map, dictInsert]

/-- C2 witness: the three concrete examples of the claim. -/
theorem parse_splits_at_first_depth0_sep_witness :
    parse_key_value ["a(b:c):d".toList] ':' = .ok [("a(b:c)".toList, "d".toList)]
  ∧ parse_key_value ["  key  :  value  ".toList] ':' = .ok [("key".toList, "value".toList)]
  ∧ parse_key_value [":value".toList] ':' = .ok [] := by
  refine ⟨?_, ?_, ?_⟩
  · rw [(parse_splits_at_first_depth0_sep ':' ("a(b:c):d".toList) 6 (by decide)).2]; decide
  · rw [(parse_splits_at_first_depth0_sep ':' ("  key  :  value  ".toList) 7 (by decide)).2]; decide
  · rw [(parse_splits_at_first_depth0_sep ':' (":value".toList) 0 (by decide)).2]; decide

/-- C1: evaluation of the code at the failing input. The claim says a line
with no depth-zero separator yields no entry and parsing the single line
noseparatorhere yields the empty mapping; the code instead leaves the
loop variable i at the last index of the line, so the line is split
there: the key is the line minus its final character and the value is
empty, and an entry is emitted. -/
theorem parse_no_sep_line_emits_entry :
    parse_key_value ["noseparatorhere".toList] ':' =
      .ok [("noseparatorher".toList, [])] := by decide

/-- C4: evaluation of the code at the failing input. The claim says
parse_key_value is total on every list of lines; on a list whose first
line is empty the inner loop never runs, the loop variable i is never
assigned, and reading it raises UnboundLocalError. -/
theorem parse_empty_first_line_raises :
    parse_key_value [[]] ':' = .error (.unboundLocal "i") := by decide

/-- C3: evaluation of the code at the failing input. The claim says
teardown runs exactly once on every exit path, including when a read of
the login handshake times out; on a transport that produces no data the
first handshake read raises inside the constructor, the with statement is
never entered, and neither the logout write nor the close ever happens:
the close count is 0, not 1. -/
theorem handshake_failure_skips_teardown :
    (withRouter [] (fun _ st => (.ok 0, st))).1 =
      .error (.ioError "Failed to read from telnet session.")
  ∧ (withRouter [] (fun _ st => (.ok 0, st))).2.closeCount = 0
  ∧ (withRouter [] (fun _ st => (.ok 0, st))).2.writes = [] := by decide

/-- C9: sanitize returns exactly the subsequence of characters whose code
point lies strictly between 31 and 127 or that are the newline character:
the output is a sublist of the input, contains only characters of that
class, keeps every occurrence of a character of that class, is idempotent,
and is the identity on strings made only of such characters. -/
theorem sanitize_exact_subsequence (s : Str) :
    List.Sublist (sanitize s) s
  ∧ (∀ c ∈ sanitize s, specKeep c)
  ∧ (∀ c, specKeep c → List.count c (sanitize s) = List.count c s)
  ∧ sanitize (sanitize s) = sanitize s
  ∧ ((∀ c ∈ s, specKeep c) → sanitize s = s) := by
  have hkeep : ∀ c, sanitizeKeep c = true ↔ specKeep c := by
    intro c; simp [sanitizeKeep, specKeep]
  refine ⟨List.filter_sublist s, ?_, ?_, ?_, ?_⟩
  · intro c hc
    exact (hkeep c).mp (List.of_mem_filter hc)
  · intro c hc
    exact List.count_filter ((hkeep c).mpr hc)
  · simp [sanitize, List.filter_filter]
  · intro h
    exact List.filter_eq_self.mpr (fun a ha => (hkeep a).mpr (h a ha))

/-- C9 witness: an already-clean printable-ASCII string is unchanged. -/
theorem sanitize_exact_subsequence_witness :
    sanitize ("Modem state: Showtime".toList) = "Modem state: Showtime".toList :=
  (sanitize_exact_subsequence _).2.2.2.2 (by decide)

/-- C6 counterexample: on parsed output lacking the required uptime key,
get_xdsl_info raises a KeyError whose only payload is the missing key;
no error value of the source carries the name of the command that was
expected to produce the key, so the error does not identify it as the
claim requires. -/
theorem missing_key_error_names_no_command :
    get_xdsl_info_extract [] = .error (.keyError upKey)
  ∧ errCommand (.keyError upKey) = none := by
  exact ⟨by decide, rfl⟩

/-- C6 amended: when the first required key looked up by get_xdsl_info is
absent from the parsed device output, the extraction fails with a
KeyError naming that missing key; this error is distinct from the IOError
used for transport failures, but it does not identify the command that
was expected to produce the key. -/
theorem missing_uptime_key_raises_keyerror (kv : Dict)
    (h : dictFind kv upKey = none) :
    get_xdsl_info_extract kv = .error (.keyError upKey)
  ∧ PyError.keyError upKey ≠ PyError.ioError "Failed to read from telnet session."
  ∧ errCommand (.keyError upKey) = none := by
  refine ⟨?_, by simp, rfl⟩
  simp [get_xdsl_info_extract, dictGet, h, exceptBind_error]

/-- C6 amended witness: a dict holding only the modem-state key. -/
theorem missing_uptime_key_raises_keyerror_witness :
    get_xdsl_info_extract [("Modem state".toList, "Showtime".toList)] =
      .error (.keyError upKey) :=
  (missing_uptime_key_raises_keyerror _ (by decide)).1

/-- C5: the session read raises the IOError (the spec's ProtocolError) if
and only if the data the transport returned does not end with the
expected terminator; when the terminator is found it returns the
sanitized data with the terminator removed; and a first handshake read
that fails this way makes the constructor return the error, so the
session is never successfully opened. -/
theorem read_protocol_error_iff (data s : Str) (hs : s ≠ []) :
    (readResult data s = .error (.ioError "Failed to read from telnet session.")
        ↔ pyEndsWith data s = false)
  ∧ (pyEndsWith data s = true →
        readResult data s = .ok (sanitize (data.take (data.length - s.length))))
  ∧ (∀ (chunk : Str) (rest : List Str) (username password : Option Str),
        pyEndsWith chunk usernamePrompt = false →
          (tg_init (chunk :: rest) username password).1 =
            .error (.ioError "Failed to read from telnet session.")) := by
  have hlen : s.length ≠ 0 := by simpa using hs
  refine ⟨?_, ?_, ?_⟩
  · constructor
    · intro h
      by_contra hne
      have ht : pyEndsWith data s = true := by
        cases hb : pyEndsWith data s
        · exact absurd hb hne
        · rfl
      simp [readResult, ht] at h
    · intro h; simp [readResult, h]
  · intro h
    simp [readResult, h, pySliceNeg, hlen]
  · intro chunk rest username password hfail
    simp [tg_init, sRead, tRead, readResult, hfail]

/-- C5 witness: a read that finds its terminator, and a handshake against
a transport that yields no usable data before the first read times out. -/
theorem read_protocol_error_iff_witness :
    readResult ("xyUsername : ".toList) usernamePrompt =
      .ok (sanitize (("xyUsername : ".toList).take
            (("xyUsername : ".toList).length - usernamePrompt.length)))
  ∧ (tg_init [[]] none none).1 =
      .error (.ioError "Failed to read from telnet session.") := by
  have h := read_protocol_error_iff ("xyUsername : ".toList) usernamePrompt (by decide)
  exact ⟨h.2.1 (by decide), h.2.2 [] [] none none (by decide)⟩


/-- The bytes one send of the go-up command writes to the transport. -/
def goUpWrite : Str := "..".toList ++ "\r\n".toList

theorem tg_send_ok (sess : Session) (st : TState) (cmd e p : Str) (rest : List Str)
    (hc : st.chunks = e :: p :: rest)
    (he : pyEndsWith e ("\r\n".toList) = true)
    (hp : pyEndsWith p (promptCmd sess.username) = true) :
    tg_send sess st cmd =
      (.ok (sanitize (pySliceNeg p (promptCmd sess.username).length)),
       { chunks := rest, writes := st.writes ++ [cmd ++ "\r\n".toList],
         closeCount := st.closeCount }) := by
  obtain ⟨chunks, writes, closeCount⟩ := st
  simp only at hc
  subst hc
  have he2 : pyEndsWith e ['\x0d', '\n'] = true := he
  simp only [tg_send, tWrite, sRead, tRead, readResult]
  simp [he, he2, hp]

/-- C10: reset_level issues the go-up command exactly four times, each as
a full send cycle (command write, echo read, prompt read), regardless of
what the device answers, i.e. of the current command-group depth: on any
transport whose next eight reads find their terminators it consumes
exactly those eight chunks and appends exactly four go-up command writes,
leaving the close count untouched. -/
theorem reset_level_sends_four_goups (sess : Session) (st : TState)
    (c1 c2 c3 c4 c5 c6 c7 c8 : Str) (rest : List Str)
    (hc : st.chunks = [c1, c2, c3, c4, c5, c6, c7, c8] ++ rest)
    (h1 : pyEndsWith c1 ("\r\n".toList) = true)
    (h2 : pyEndsWith c2 (promptCmd sess.username) = true)
    (h3 : pyEndsWith c3 ("\r\n".toList) = true)
    (h4 : pyEndsWith c4 (promptCmd sess.username) = true)
    (h5 : pyEndsWith c5 ("\r\n".toList) = true)
    (h6 : pyEndsWith c6 (promptCmd sess.username) = true)
    (h7 : pyEndsWith c7 ("\r\n".toList) = true)
    (h8 : pyEndsWith c8 (promptCmd sess.username) = true) :
    reset_level sess st =
      (.ok (), { chunks := rest,
                 writes := st.writes ++ [goUpWrite, goUpWrite, goUpWrite, goUpWrite],
                 closeCount := st.closeCount }) := by
  have e1 : st.chunks = c1 :: c2 :: (c3 :: c4 :: c5 :: c6 :: c7 :: c8 :: rest) := by
    simpa using hc
  have s1 := tg_send_ok sess st ("..".toList) c1 c2 _ e1 h1 h2
  have s2 := tg_send_ok sess
      { chunks := c3 :: c4 :: c5 :: c6 :: c7 :: c8 :: rest,
        writes := st.writes ++ ["..".toList ++ "\r\n".toList],
        closeCount := st.closeCount }
      ("..".toList) c3 c4 _ rfl h3 h4
  have s3 := tg_send_ok sess
      { chunks := c5 :: c6 :: c7 :: c8 :: rest,
        writes := (st.writes ++ ["..".toList ++ "\r\n".toList]) ++ ["..".toList ++ "\r\n".toList],
        closeCount := st.closeCount }
      ("..".toList) c5 c6 _ rfl h5 h6
  have s4 := tg_send_ok sess
      { chunks := c7 :: c8 :: rest,
        writes := ((st.writes ++ ["..".toList ++ "\r\n".toList]) ++ ["..".toList ++ "\r\n".toList])
          ++ ["..".toList ++ "\r\n".toList],
        closeCount := st.closeCount }
      ("..".toList) c7 c8 _ rfl h7 h8
  simp only [reset_level, sendN, s1, s2, s3, s4]
  simp [goUpWrite]

/-- C10 witness: a session at some nesting depth whose device answers
each go-up with an empty line and a prompt. -/
theorem reset_level_sends_four_goups_witness :
    reset_level { username := "Administrator".toList, password := [], connected := true }
        { chunks := ["\r\n".toList, promptCmd ("Administrator".toList),
                     "\r\n".toList, promptCmd ("Administrator".toList),
                     "\r\n".toList, promptCmd ("Administrator".toList),
                     "\r\n".toList, promptCmd ("Administrator".toList)],
          writes := [], closeCount := 0 } =
      (.ok (), { chunks := [],
                 writes := [goUpWrite, goUpWrite, goUpWrite, goUpWrite],
                 closeCount := 0 }) := by
  have h := reset_level_sends_four_goups
      { username := "Administrator".toList, password := [], connected := true }
      { chunks := ["\r\n".toList, promptCmd ("Administrator".toList),
                   "\r\n".toList, promptCmd ("Administrator".toList),
                   "\r\n".toList, promptCmd ("Administrator".toList),
                   "\r\n".toList, promptCmd ("Administrator".toList)],
        writes := [], closeCount := 0 }
      ("\r\n".toList) (promptCmd ("Administrator".toList))
      ("\r\n".toList) (promptCmd ("Administrator".toList))
      ("\r\n".toList) (promptCmd ("Administrator".toList))
      ("\r\n".toList) (promptCmd ("Administrator".toList)) []
      (by simp) (by decide) (by decide) (by decide) (by decide)
      (by decide) (by decide) (by decide) (by decide)
  simpa using h

theorem dropWhile_eq_self_of_forall (p : Char → Bool) (l : Str)
    (h : ∀ c ∈ l, p c = false) : l.dropWhile p = l := by
  cases l with
  | nil => rfl
  | cons c rest => simp [List.dropWhile_cons, h c (by simp)]

theorem pyStrip_eq_self_of_forall (l : Str) (h : ∀ c ∈ l, pyWs c = false) :
    pyStrip l = l := by
  unfold pyStrip
  rw [dropWhile_eq_self_of_forall _ _ h,
      dropWhile_eq_self_of_forall _ _ (fun c hc => h c (List.mem_reverse.mp hc)),
      List.reverse_reverse]

theorem pyStrip_space_cons (l : Str) (h : ∀ c ∈ l, pyWs c = false) :
    pyStrip (' ' :: l) = l := by
  unfold pyStrip
  have h0 : List.dropWhile pyWs (' ' :: l) = List.dropWhile pyWs l := by
    rw [List.dropWhile_cons, if_pos (by decide)]
  rw [h0, dropWhile_eq_self_of_forall _ _ h,
      dropWhile_eq_self_of_forall _ _ (fun c hc => h c (List.mem_reverse.mp hc)),
      List.reverse_reverse]

theorem pySplit_of_not_mem (sep : Char) (l : Str) (h : sep ∉ l) :
    pySplit l sep = [l] := by
  induction l with
  | nil => rfl
  | cons c rest ih =>
    have hc : ¬(c = sep) := fun he => h (he ▸ List.mem_cons_self c rest)
    simp only [pySplit, if_neg hc]
    rw [ih (fun hm => h (List.mem_cons_of_mem _ hm))]

theorem pySplit_append_sep (sep : Char) (a b : Str) (h : sep ∉ a) :
    pySplit (a ++ sep :: b) sep = a :: pySplit b sep := by
  induction a with
  | nil => simp [pySplit]
  | cons c rest ih =>
    have hc : ¬(c = sep) := fun he => h (he ▸ List.mem_cons_self c rest)
    simp only [List.cons_append, pySplit, if_neg hc, List.append_eq]
    rw [ih (fun hm => h (List.mem_cons_of_mem _ hm))]

theorem isDig_props (c : Char) (h : isDig c = true) :
    pyWs c = false ∧ c ≠ ',' ∧ c ≠ ':' ∧ c ≠ '/' ∧ c ≠ ' ' := by
  have hn : 48 ≤ c.toNat ∧ c.toNat ≤ 57 := by simpa [isDig] using h
  refine ⟨?_, ?_, ?_, ?_, ?_⟩
  · simp only [pyWs, decide_eq_false_iff_not]; omega
  · intro he; rw [he] at hn; exact absurd hn (by decide)
  · intro he; rw [he] at hn; exact absurd hn (by decide)
  · intro he; rw [he] at hn; exact absurd hn (by decide)
  · intro he; rw [he] at hn; exact absurd hn (by decide)

theorem digitChar_toNat (d : Nat) (h : d ≤ 9) : (digitChar d).toNat = 48 + d := by
  interval_cases d <;> decide

theorem digitChar_isDig (d : Nat) (h : d ≤ 9) : isDig (digitChar d) = true := by
  interval_cases d <;> decide

theorem pad2_all_isDig (n : Nat) (h : n ≤ 99) : ∀ c ∈ pad2 n, isDig c = true := by
  intro c hc
  have h1 : n / 10 ≤ 9 := by omega
  have h2 : n % 10 ≤ 9 := by omega
  simp only [pad2, List.mem_cons, List.not_mem_nil, or_false] at hc
  rcases hc with hc | hc <;> subst hc
  · exact digitChar_isDig _ h1
  · exact digitChar_isDig _ h2

theorem pyIndex_zero (a : Str) (l : List Str) : pyIndex (a :: l) 0 = .ok a := rfl

theorem pyIndex_one (a b : Str) (l : List Str) : pyIndex (a :: b :: l) 1 = .ok b := rfl

theorem expectColon_cons (rest : Str) (k : Str → Option (Nat × Nat × Nat)) :
    expectColon (':' :: rest) k = k rest := by
  simp [expectColon]

theorem parse2or1_pad2 (maxv n : Nat) (tail : Str) (k : Nat → Str → Option (Nat × Nat × Nat))
    (r : Nat × Nat × Nat) (hn : n ≤ maxv) (h99 : n ≤ 99) (hk : k n tail = some r) :
    parse2or1 maxv (pad2 n ++ tail) k = some r := by
  have hd1 : n / 10 ≤ 9 := by omega
  have hd2 : n % 10 ≤ 9 := by omega
  have e1 := digitChar_toNat _ hd1
  have e2 := digitChar_toNat _ hd2
  have i1 := digitChar_isDig _ hd1
  have i2 := digitChar_isDig _ hd2
  have hpad : pad2 n ++ tail = digitChar (n / 10) :: digitChar (n % 10) :: tail := rfl
  rw [hpad]
  simp only [parse2or1, i1, i2, e1, e2, eq_self_iff_true, if_true, true_and]
  have hv : (48 + n / 10 - 48) * 10 + (48 + n % 10 - 48) = n := by omega
  rw [hv, if_pos hn, hk]

theorem parseHMS_pad2 (h m s : Nat) (hh : h ≤ 23) (hm : m ≤ 59) (hs : s ≤ 61) :
    parseHMS (pad2 h ++ ':' :: (pad2 m ++ ':' :: pad2 s)) = some (h, m, s) := by
  unfold parseHMS
  refine parse2or1_pad2 23 h (':' :: (pad2 m ++ ':' :: pad2 s)) _ _ hh (by omega) ?_
  show expectColon (':' :: (pad2 m ++ ':' :: pad2 s)) _ = some (h, m, s)
  rw [expectColon_cons]
  show parse2or1 59 (pad2 m ++ ':' :: pad2 s) _ = some (h, m, s)
  refine parse2or1_pad2 59 m (':' :: pad2 s) _ _ hm (by omega) ?_
  show expectColon (':' :: pad2 s) _ = some (h, m, s)
  rw [expectColon_cons]
  show parse2or1 61 (pad2 s ++ []) _ = some (h, m, s)
  refine parse2or1_pad2 61 s [] _ _ hs (by omega) ?_
  rfl

theorem forall_mem_hms (h m s : Nat) (hh : h ≤ 99) (hm : m ≤ 99) (hs : s ≤ 99) :
    ∀ c ∈ pad2 h ++ ':' :: (pad2 m ++ ':' :: pad2 s), isDig c = true ∨ c = ':' := by
  intro c hc
  simp only [List.mem_append, List.mem_cons] at hc
  rcases hc with hc | hc | hc
  · exact Or.inl (pad2_all_isDig h hh c hc)
  · exact Or.inr hc
  · rcases hc with hc | hc | hc
    · exact Or.inl (pad2_all_isDig m hm c hc)
    · exact Or.inr hc
    · exact Or.inl (pad2_all_isDig s hs c hc)

/-- C7: on down-slash-up rate text whose two sides are integer literals,
the bandwidth extraction returns 1000 times each side divided by 8 with
truncating integer division (the floor division the code performs agrees
with truncation here because 1000 times an integer is an exact multiple
of 8, the quotient being 125 times that integer). -/
theorem bandwidth_conversion (dstr ustr : Str) (dv uv : Int)
    (hd : pyInt dstr = some dv) (hu : pyInt ustr = some uv)
    (hds : '/' ∉ dstr) (hus : '/' ∉ ustr) :
    bwdFromStr (dstr ++ '/' :: ustr) = .ok (Int.tdiv (1000 * dv) 8)
  ∧ bwuFromStr (dstr ++ '/' :: ustr) = .ok (Int.tdiv (1000 * uv) 8)
  ∧ Int.tdiv (1000 * dv) 8 = 125 * dv
  ∧ Int.tdiv (1000 * uv) 8 = 125 * uv := by
  have hsplit : pySplit (dstr ++ '/' :: ustr) '/' = [dstr, ustr] := by
    rw [pySplit_append_sep _ _ _ hds, pySplit_of_not_mem _ _ hus]
  have hfd : ∀ n : Int, pyFloorDiv (1000 * n) 8 = Int.tdiv (1000 * n) 8 := by
    intro n
    have h8 : (1000 : Int) * n = 8 * (125 * n) := by ring
    rw [pyFloorDiv, h8, Int.mul_fdiv_cancel_left _ (by norm_num),
        Int.mul_tdiv_cancel_left _ (by norm_num)]
  have htd : ∀ n : Int, Int.tdiv (1000 * n) 8 = 125 * n := by
    intro n
    have h8 : (1000 : Int) * n = 8 * (125 * n) := by ring
    rw [h8, Int.mul_tdiv_cancel_left _ (by norm_num)]
  refine ⟨?_, ?_, htd dv, htd uv⟩
  · simp only [bwdFromStr, hsplit, pyIndex_zero, exceptBind_ok, pyIntE, hd, hfd dv]
  · simp only [bwuFromStr, hsplit, pyIndex_one, exceptBind_ok, pyIntE, hu, hfd uv]

/-- C7 witness: the concrete example of the claim, 8000 down and 800 up
kilobits per second becoming 1,000,000 and 100,000 bytes per second. -/
theorem bandwidth_conversion_witness :
    bwdFromStr ("8000/800".toList) = .ok 1000000
  ∧ bwuFromStr ("8000/800".toList) = .ok 100000 := by
  have he : ("8000/800".toList) = "8000".toList ++ '/' :: "800".toList := by decide
  have h := bandwidth_conversion ("8000".toList) ("800".toList) 8000 800
      (by decide) (by decide) (by decide) (by decide)
  refine ⟨?_, ?_⟩
  · rw [he, h.1]; decide
  · rw [he, h.2.1]; decide

/-- C8: on uptime text of the form a day count followed by a comma, a
space and a two-digit hh colon mm colon ss clock (hours at most 23,
minutes and seconds at most 59), the uptime extraction returns the total
seconds days times 86400 plus hours times 3600 plus minutes times 60 plus
seconds. -/
theorem uptime_conversion (dstr : Str) (d : Int) (h m s : Nat)
    (hdig : ∀ c ∈ dstr, isDig c = true) (hint : pyInt dstr = some d)
    (hh : h ≤ 23) (hm : m ≤ 59) (hs : s ≤ 59) :
    uptimeFromStr (dstr ++ ',' :: ' ' :: (pad2 h ++ ':' :: (pad2 m ++ ':' :: pad2 s))) =
      .ok (d * 86400 + (h : Int) * 3600 + (m : Int) * 60 + (s : Int)) := by
  have hmsMem : ∀ c ∈ pad2 h ++ ':' :: (pad2 m ++ ':' :: pad2 s), isDig c = true ∨ c = ':' :=
    forall_mem_hms h m s (by omega) (by omega) (by omega)
  have hnoC_d : ',' ∉ dstr := fun hc => (isDig_props _ (hdig _ hc)).2.1 rfl
  have hnoC_t : ',' ∉ (' ' :: (pad2 h ++ ':' :: (pad2 m ++ ':' :: pad2 s))) := by
    intro hc
    rcases List.mem_cons.mp hc with hc | hc
    · exact absurd hc (by decide)
    · rcases hmsMem _ hc with hd0 | hcol
      · exact (isDig_props _ hd0).2.1 rfl
      · exact absurd hcol (by decide)
  have hsplit : pySplit (dstr ++ ',' :: ' ' :: (pad2 h ++ ':' :: (pad2 m ++ ':' :: pad2 s))) ','
      = [dstr, ' ' :: (pad2 h ++ ':' :: (pad2 m ++ ':' :: pad2 s))] := by
    rw [pySplit_append_sep _ _ _ hnoC_d, pySplit_of_not_mem _ _ hnoC_t]
  have hstrip_d : pyStrip dstr = dstr :=
    pyStrip_eq_self_of_forall _ (fun c hc => (isDig_props _ (hdig _ hc)).1)
  have hnoSpace_d : ' ' ∉ dstr := fun hc => (isDig_props _ (hdig _ hc)).2.2.2.2 rfl
  have hsplit_d : pySplit dstr ' ' = [dstr] := pySplit_of_not_mem _ _ hnoSpace_d
  have hstrip_t : pyStrip (' ' :: (pad2 h ++ ':' :: (pad2 m ++ ':' :: pad2 s)))
      = pad2 h ++ ':' :: (pad2 m ++ ':' :: pad2 s) := by
    apply pyStrip_space_cons
    intro c hc
    rcases hmsMem _ hc with hd0 | hcol
    · exact (isDig_props _ hd0).1
    · rw [hcol]; decide
  have hintE : pyIntE dstr = .ok d := by
    simp only [pyIntE, hint]
  have hparse : strptimeHMS (pad2 h ++ ':' :: (pad2 m ++ ':' :: pad2 s)) = .ok (h, m, s) := by
    simp only [strptimeHMS, parseHMS_pad2 h m s hh hm (by omega)]
  simp only [uptimeFromStr, hsplit, pyIndex_zero, pyIndex_one, exceptBind_ok,
             hstrip_d, hsplit_d, hintE, hstrip_t, hparse]
  congr 1
  ring

/-- C8 witness: the concrete example of the claim, five days plus three
hours twenty minutes ten seconds becoming 444010 seconds. -/
theorem uptime_conversion_witness :
    uptimeFromStr ("5, 03:20:10".toList) = .ok 444010 := by
  have he : ("5, 03:20:10".toList)
      = ['5'] ++ ',' :: ' ' :: (pad2 3 ++ ':' :: (pad2 20 ++ ':' :: pad2 10)) := by decide
  rw [he, uptime_conversion ['5'] 5 3 20 10 (by decide) (by decide)
        (by decide) (by decide) (by decide)]
  decide
